import Mathlib

/-!
Verification development for the optimum-benchmark model-preparation
pipeline.  The definitions below are a shallow embedding of the three
source files of the repository:

* main.py (the benchmark-run driver, function run_experiment),
* optimum_benchmark/backends/onnxruntime/backend.py (class ORTBackend),
* optimum_benchmark/backends/openvino/backend.py (class OVBackend).

External collaborators that the backends call into (model loaders,
optimizers, quantizers, the dataset generator, the filesystem and the
task-to-loader-class tables, all of which live outside the embedded
files) are modelled as an explicit environment record whose fields give
the outcome of each external call.  Each backend method is translated
into a pure function that threads the mutable configuration object
explicitly and records a trace of the externally observable actions it
performs, in program order; an exception is modelled as an
Except.error result, and an action event appears in the trace exactly
when the corresponding call was invoked (whether or not it then raised).
-/

set_option autoImplicit false

deriving instance DecidableEq for Except

namespace OptimumBenchmark

/-- Events observable during a run of ORTBackend methods, in program order. -/
inductive Ev where
  | setSessionOptionsEv
  | createTmpdirEv
  | createNoWeightsModelEv
  | loadModelEv (model : String) (exportArg : Bool)
  | processOptConfigEv (auto : Bool)
  | createOptimizerEv
  | optimizeEv
  | processQuantConfigEv (auto : Bool)
  | generateDatasetEv
  | processCalibConfigEv (auto : Bool)
  | createQuantizerEv (file : String)
  | fitCalibrationEv (file : String)
  | quantizeFileEv (file : String)
  | validateProviderEv
  | cleanupTmpdirEv
deriving Repr, DecidableEq

/-- Errors raised by ORTBackend code: one constructor per raise statement of
the embedded file, plus libError for exceptions propagated from external
library calls. -/
inductive ORTErr where
  | unsupportedTask (task : String)
  | multiComponentCalibration (n : Nat)
  | providerMismatch (provider : String) (providers : List String)
  | assertionError (path : String)
  | libError (msg : String)
deriving Repr, DecidableEq

/-- The loaded model object returned by ortmodel_class.from_pretrained, with
the attributes the backend reads: providers, model_save_dir, and the two
optional input-name attributes probed by hasattr. -/
structure PretrainedModel where
  providers : List String
  model_save_dir : String
  inputs_names_attr : Option (List String)
  input_names_attr : Option (List String)
deriving Repr, DecidableEq

/-- The ORTConfig fields read or written by the embedded ORTBackend code. -/
structure ORTConfig where
  task : String
  model : String
  device : String
  provider : String
  library : String
  no_weights : Bool
  export_ : Bool
  use_merged : Bool
  session_options : List (String × String)
  optimization : Bool
  auto_optimization : Option String
  quantization : Bool
  auto_quantization : Option String
  calibration : Bool
  auto_calibration : Option String
deriving Repr, DecidableEq

/-- Environment of ORTBackend: outcomes of external calls.  lookupSD and
lookupORT model the TASKS_TO_ORTSD and TASKS_TO_ORTMODELS tables, load the
from_pretrained call (as a function of the model and export arguments the
backend passes), isdir and listdir the filesystem, and the Option String
fields the outcome of each failable library call (none means success,
some msg means the call raised with message msg). -/
structure ORTEnv where
  lookupSD : String → Option String
  lookupORT : String → Option String
  tmpdirName : String
  load : String → Bool → Except String PretrainedModel
  isdir : String → Bool
  listdir : String → List String
  optimizeResult : Option String
  datasetGenResult : Option String
  fitResult : Option String
  quantizeResult : Option String

/-- PROBLEMATIC_INPUTS from the onnxruntime backend file. -/
def PROBLEMATIC_INPUTS : List String := ["token_type_ids", "position_ids"]

/-- Constant imported from optimum.onnxruntime (value as in that library). -/
def ONNX_DECODER_NAME : String := "decoder_model.onnx"

/-- Constant imported from optimum.onnxruntime (value as in that library). -/
def ONNX_DECODER_WITH_PAST_NAME : String := "decoder_with_past_model.onnx"

/-- ORTBackend.is_optimized property. -/
def is_optimized (c : ORTConfig) : Bool :=
  c.auto_optimization.isSome || c.optimization

/-- ORTBackend.is_quantized property. -/
def is_quantized (c : ORTConfig) : Bool :=
  c.auto_quantization.isSome || c.quantization

/-- ORTBackend.is_calibrated property. -/
def is_calibrated (c : ORTConfig) : Bool :=
  c.auto_calibration.isSome || c.calibration

/-- ORTBackend.validate_task: resolve the loader class for the task from the
TASKS_TO_ORTSD table, then the TASKS_TO_ORTMODELS table, raising
NotImplementedError when neither contains it. -/
def validate_task (env : ORTEnv) (cfg : ORTConfig) : Except ORTErr String :=
  match env.lookupSD cfg.task with
  | some cls => .ok cls
  | none =>
    match env.lookupORT cfg.task with
    | some cls => .ok cls
    | none => .error (.unsupportedTask cfg.task)

/-- ORTBackend.validate_provider: raise ValueError unless the first element
of the loaded model providers list equals the configured provider (indexing
an empty providers list is an IndexError). -/
def validate_provider (cfg : ORTConfig) (m : PretrainedModel) : Except ORTErr Unit :=
  match m.providers with
  | [] => .error (.libError "IndexError: providers")
  | p :: _ => if p == cfg.provider then .ok () else .error (.providerMismatch cfg.provider m.providers)

/-- The str.endswith test, phrased over the character lists so that it
evaluates by structural recursion. -/
def pyEndswith (s suf : String) : Bool :=
  suf.data.isSuffixOf s.data

/-- ORTBackend.onnx_files_names property: assert the model path is a
directory, then list the files ending in .onnx, excluding the decoder
companions when use_merged is set. -/
def onnx_files_names (env : ORTEnv) (cfg : ORTConfig) : Except ORTErr (List String) :=
  if env.isdir cfg.model then
    if cfg.use_merged then
      .ok ((env.listdir cfg.model).filter fun f =>
        !(f == ONNX_DECODER_NAME || f == ONNX_DECODER_WITH_PAST_NAME) && pyEndswith f ".onnx")
    else
      .ok ((env.listdir cfg.model).filter fun f => pyEndswith f ".onnx")
  else
    .error (.assertionError cfg.model)

/-- Path of the no_weights_model directory inside the backend tmpdir. -/
def no_weights_model_dir (env : ORTEnv) : String :=
  env.tmpdirName ++ "/no_weights_model"

/-- Path of the optimized-model directory inside the backend tmpdir. -/
def optimized_model_dir (env : ORTEnv) : String :=
  env.tmpdirName ++ "/optimized"

/-- Path of the quantized-model directory inside the backend tmpdir. -/
def quantized_model_dir (env : ORTEnv) : String :=
  env.tmpdirName ++ "/quantized_model"

/-- ORTBackend.load_ortmodel_from_pretrained: a from_pretrained call with the
current config model and export values. -/
def load_ortmodel_from_pretrained (env : ORTEnv) (cfg : ORTConfig) :
    Except ORTErr PretrainedModel × List Ev :=
  match env.load cfg.model cfg.export_ with
  | .ok m => (.ok m, [Ev.loadModelEv cfg.model cfg.export_])
  | .error msg => (.error (.libError msg), [Ev.loadModelEv cfg.model cfg.export_])

/-- ORTBackend.load_ortmodel_with_no_weights: create the no-weights model
directory, repoint config.model at it, load, then restore config.model.
The restore statement is inside the with-block after the load call, so it
is skipped when the load raises. -/
def load_ortmodel_with_no_weights (env : ORTEnv) (cfg : ORTConfig) :
    Except ORTErr PretrainedModel × ORTConfig × List Ev :=
  let original_model := cfg.model
  let cfg1 : ORTConfig := { cfg with model := no_weights_model_dir env }
  match load_ortmodel_from_pretrained env cfg1 with
  | (.ok m, evs) => (.ok m, { cfg1 with model := original_model }, Ev.createNoWeightsModelEv :: evs)
  | (.error e, evs) => (.error e, cfg1, Ev.createNoWeightsModelEv :: evs)

/-- ORTBackend.optimize_onnx_files: build the optimization config (auto
preset checked first, manual options otherwise; with neither set the later
use of the unbound local raises), create the optimizer over the enumerated
onnx files, and run it. -/
def optimize_onnx_files (env : ORTEnv) (cfg : ORTConfig) : Except ORTErr Unit × List Ev :=
  let (configBound, evs1) :=
    if cfg.auto_optimization.isSome then (true, [Ev.processOptConfigEv true])
    else if cfg.optimization then (true, [Ev.processOptConfigEv false])
    else (false, ([] : List Ev))
  match onnx_files_names env cfg with
  | .error e => (.error e, evs1)
  | .ok _files =>
    let evs2 := evs1 ++ [Ev.createOptimizerEv]
    if !configBound then
      (.error (.libError "NameError: optimization_config"), evs2)
    else
      match env.optimizeResult with
      | some msg => (.error (.libError msg), evs2 ++ [Ev.optimizeEv])
      | none => (.ok (), evs2 ++ [Ev.optimizeEv])

/-- Loop body of ORTBackend.quantize_onnx_files: for each onnx file, create
a quantizer, fit calibration ranges when calibrating, and quantize the
file.  configBound records whether a quantization config was constructed
(when neither auto nor manual quantization is set the local is unbound and
its use raises). -/
def quantize_loop (env : ORTEnv) (calibrated configBound : Bool) :
    List String → Except ORTErr Unit × List Ev
  | [] => (.ok (), [])
  | f :: fs =>
    let evs0 := [Ev.createQuantizerEv f]
    if calibrated then
      if !configBound then
        (.error (.libError "NameError: quantization_config"), evs0)
      else
        match env.fitResult with
        | some msg => (.error (.libError msg), evs0 ++ [Ev.fitCalibrationEv f])
        | none =>
          match env.quantizeResult with
          | some msg => (.error (.libError msg), evs0 ++ [Ev.fitCalibrationEv f, Ev.quantizeFileEv f])
          | none =>
            let (r, evs1) := quantize_loop env calibrated configBound fs
            (r, evs0 ++ [Ev.fitCalibrationEv f, Ev.quantizeFileEv f] ++ evs1)
    else
      if !configBound then
        (.error (.libError "NameError: quantization_config"), evs0)
      else
        match env.quantizeResult with
        | some msg => (.error (.libError msg), evs0 ++ [Ev.quantizeFileEv f])
        | none =>
          let (r, evs1) := quantize_loop env calibrated configBound fs
          (r, evs0 ++ [Ev.quantizeFileEv f] ++ evs1)

/-- ORTBackend.quantize_onnx_files: first the multi-component calibration
check (short-circuit: the file list is only enumerated when calibration is
requested), then quantization-config construction (auto preset first),
then, when calibrating, dataset generation and calibration-config
construction (auto method first), then the per-file quantization loop. -/
def quantize_onnx_files (env : ORTEnv) (cfg : ORTConfig) : Except ORTErr Unit × List Ev :=
  let check : Except ORTErr Unit :=
    if is_calibrated cfg then
      match onnx_files_names env cfg with
      | .error e => .error e
      | .ok files =>
        if files.length > 1 then .error (.multiComponentCalibration files.length) else .ok ()
    else .ok ()
  match check with
  | .error e => (.error e, [])
  | .ok () =>
    let (configBound, evs1) :=
      if cfg.auto_quantization.isSome then (true, [Ev.processQuantConfigEv true])
      else if cfg.quantization then (true, [Ev.processQuantConfigEv false])
      else (false, ([] : List Ev))
    let (calibRes, evs2) :=
      if is_calibrated cfg then
        match env.datasetGenResult with
        | some msg => (Except.error (ORTErr.libError msg), [Ev.generateDatasetEv])
        | none =>
          if cfg.auto_calibration.isSome then
            (Except.ok (), [Ev.generateDatasetEv, Ev.processCalibConfigEv true])
          else
            (Except.ok (), [Ev.generateDatasetEv, Ev.processCalibConfigEv false])
      else (Except.ok (), ([] : List Ev))
    match calibRes with
    | .error e => (.error e, evs1 ++ evs2)
    | .ok () =>
      match onnx_files_names env cfg with
      | .error e => (.error e, evs1 ++ evs2)
      | .ok files =>
        let (r, evs3) := quantize_loop env (is_calibrated cfg) configBound files
        (r, evs1 ++ evs2 ++ evs3)

/-- Result of running ORTBackend.__init__: the outcome, the configuration
object as the caller observes it afterwards, the trace of external actions,
the cached loader class and the finally loaded model (when reached). -/
structure ORTRun where
  result : Except ORTErr Unit
  config : ORTConfig
  trace : List Ev
  ortmodel_class : Option String
  pretrained : Option PretrainedModel
deriving Repr, DecidableEq

/-- Tail of ORTBackend.__init__ after the final load: validate_provider then
tmpdir.cleanup; a provider-validation failure skips the cleanup call. -/
def ortFinish (cls : String) (cfg : ORTConfig) (m : PretrainedModel) (evs : List Ev) : ORTRun :=
  match validate_provider cfg m with
  | .error e =>
    { result := .error e, config := cfg, trace := evs ++ [Ev.validateProviderEv],
      ortmodel_class := some cls, pretrained := some m }
  | .ok () =>
    { result := .ok (), config := cfg, trace := evs ++ [Ev.validateProviderEv, Ev.cleanupTmpdirEv],
      ortmodel_class := some cls, pretrained := some m }

/-- Middle section of ORTBackend.__init__, entered when is_optimized or
is_quantized holds: save the original model reference, repoint at the model
save dir, run the requested stages (each advancing config.model on
success), force export off, reload, and restore model and export only
after the reload succeeds. -/
def ortStages (env : ORTEnv) (cls : String) (cfg1 : ORTConfig) (m : PretrainedModel)
    (evs : List Ev) : ORTRun :=
  let original_model := cfg1.model
  let cfg2 : ORTConfig := { cfg1 with model := m.model_save_dir }
  let afterOpt : Except ORTErr ORTConfig × List Ev :=
    if is_optimized cfg2 then
      match optimize_onnx_files env cfg2 with
      | (.ok (), evsO) => (.ok { cfg2 with model := optimized_model_dir env }, evsO)
      | (.error e, evsO) => (.error e, evsO)
    else (.ok cfg2, [])
  match afterOpt with
  | (.error e, evsO) =>
    { result := .error e, config := cfg2, trace := evs ++ evsO,
      ortmodel_class := some cls, pretrained := some m }
  | (.ok cfg3, evsO) =>
    let afterQuant : Except ORTErr ORTConfig × List Ev :=
      if is_quantized cfg3 then
        match quantize_onnx_files env cfg3 with
        | (.ok (), evsQ) => (.ok { cfg3 with model := quantized_model_dir env }, evsQ)
        | (.error e, evsQ) => (.error e, evsQ)
      else (.ok cfg3, [])
    match afterQuant with
    | (.error e, evsQ) =>
      { result := .error e, config := cfg3, trace := evs ++ evsO ++ evsQ,
        ortmodel_class := some cls, pretrained := some m }
    | (.ok cfg4, evsQ) =>
      let original_export := cfg4.export_
      let cfg5 : ORTConfig := { cfg4 with export_ := false }
      match load_ortmodel_from_pretrained env cfg5 with
      | (.error e, evsL) =>
        { result := .error e, config := cfg5, trace := evs ++ evsO ++ evsQ ++ evsL,
          ortmodel_class := some cls, pretrained := some m }
      | (.ok m2, evsL) =>
        let cfg6 : ORTConfig := { cfg5 with model := original_model, export_ := original_export }
        ortFinish cls cfg6 m2 (evs ++ evsO ++ evsQ ++ evsL)

/-- ORTBackend.__init__, whole pipeline: validate the task, process session
options, create the tmpdir, load the model (no-weights path or pretrained
path), then the optional optimize/quantize stages with reload, provider
validation and final cleanup. -/
def ortInit (env : ORTEnv) (cfg0 : ORTConfig) : ORTRun :=
  match validate_task env cfg0 with
  | .error e =>
    { result := .error e, config := cfg0, trace := [], ortmodel_class := none, pretrained := none }
  | .ok cls =>
    let evsA : List Ev :=
      (if cfg0.session_options.isEmpty then [] else [Ev.setSessionOptionsEv]) ++ [Ev.createTmpdirEv]
    let loaded : Except ORTErr PretrainedModel × ORTConfig × List Ev :=
      if cfg0.no_weights then load_ortmodel_with_no_weights env cfg0
      else
        match load_ortmodel_from_pretrained env cfg0 with
        | (r, evs) => (r, cfg0, evs)
    match loaded with
    | (.error e, cfg1, evsB) =>
      { result := .error e, config := cfg1, trace := evsA ++ evsB,
        ortmodel_class := some cls, pretrained := none }
    | (.ok m, cfg1, evsB) =>
      if is_optimized cfg1 || is_quantized cfg1 then
        ortStages env cls cfg1 m (evsA ++ evsB)
      else
        ortFinish cls cfg1 m (evsA ++ evsB)

/-- ORTBackend.inputs_names property: the loaded model attribute
inputs_names when present, else input_names when present, else the empty
list. -/
def inputs_names (m : PretrainedModel) : List String :=
  match m.inputs_names_attr with
  | some ns => ns
  | none =>
    match m.input_names_attr with
    | some ns => ns
    | none => []

/-- A tensor value of an input mapping; the backend only inspects the device
it lives on. -/
structure TensorValue where
  device : String
deriving Repr, DecidableEq

/-- Result of calling tensor.to(device). -/
def moveTo (v : TensorValue) (d : String) : TensorValue :=
  { v with device := d }

/-- Error raised by prepare_inputs: a missing dictionary key. -/
inductive PrepErr where
  | keyError (k : String)
deriving Repr, DecidableEq

/-- ORTBackend.prepare_inputs (after the base-class call, which passes the
mapping through): for the diffusers library keep only the prompt entry;
otherwise move every non-problematic value to the configured device, and
drop a problematic key exactly when it is not among the loaded model input
names, keeping its value unmoved otherwise. -/
def prepare_inputs (cfg : ORTConfig) (names : List String)
    (inputs : List (String × TensorValue)) : Except PrepErr (List (String × TensorValue)) :=
  if cfg.library == "diffusers" then
    match inputs.lookup "prompt" with
    | some v => .ok [("prompt", v)]
    | none => .error (.keyError "prompt")
  else
    .ok (inputs.filterMap fun kv =>
      if kv.1 ∈ PROBLEMATIC_INPUTS then
        if kv.1 ∈ names then some kv else none
      else
        some (kv.1, moveTo kv.2 cfg.device))

/-! The OpenVINO backend (class OVBackend). -/

/-- Events observable during a run of OVBackend methods, in program order. -/
inductive OVEv where
  | createTmpdirEv
  | createNoWeightsModelEv
  | loadAutoModelEv (model : String)
  | tieWeightsEv
  | generateDatasetEv
  | quantizeEv
  | loadOVModelEv (model : String) (exportArg : Bool)
  | cleanupTmpdirEv
deriving Repr, DecidableEq

/-- Errors raised by OVBackend code. -/
inductive OVErr where
  | unsupportedTask (task : String)
  | libError (msg : String)
deriving Repr, DecidableEq

/-- The OVConfig fields read or written by the embedded OVBackend code. -/
structure OVConfig where
  task : String
  model : String
  device : String
  library : String
  no_weights : Bool
  export_ : Bool
  quantization : Bool
  calibration : Bool
  inter_op_num_threads : Option Int
  openvino_config : List (String × Int)
deriving Repr, DecidableEq

/-- Environment of OVBackend external calls: lookupOV models the
TASKS_TO_OVMODEL table, loadAuto the automodel_class.from_pretrained call,
loadOV the ovmodel_class.from_pretrained call (as a function of the model
and export arguments), and the Option String fields the outcome of each
failable library call. -/
structure OVEnv where
  lookupOV : String → Option String
  tmpdirName : String
  loadAuto : String → Except String Unit
  loadOV : String → Bool → Except String Unit
  datasetGenResult : Option String
  quantizeResult : Option String

/-- The key written into openvino_config, i.e. the value of the OpenVINO
runtime call properties.inference_num_threads(). -/
def inference_num_threads : String := "INFERENCE_NUM_THREADS"

/-- Python dict assignment d[k] = v on an association list with unique
keys: replace the value at the first occurrence of k, else append. -/
def dictSet (d : List (String × Int)) (k : String) (v : Int) : List (String × Int) :=
  match d with
  | [] => [(k, v)]
  | (k1, v1) :: rest => if k1 == k then (k, v) :: rest else (k1, v1) :: dictSet rest k v

/-- OVBackend.validate_task: raise NotImplementedError when the task is not
in the TASKS_TO_OVMODEL table, else resolve the loader class. -/
def ov_validate_task (env : OVEnv) (cfg : OVConfig) : Except OVErr String :=
  match env.lookupOV cfg.task with
  | none => .error (.unsupportedTask cfg.task)
  | some cls => .ok cls

/-- Path of the no_weights_model directory inside the OV backend tmpdir. -/
def ov_no_weights_model_dir (env : OVEnv) : String :=
  env.tmpdirName ++ "/no_weights_model"

/-- Path of the quantized-model directory inside the OV backend tmpdir. -/
def ov_quantized_model_dir (env : OVEnv) : String :=
  env.tmpdirName ++ "/quantized_model"

/-- OVBackend.load_automodel_with_no_weights: create the no-weights model
directory, repoint config.model at it, load the automodel, restore
config.model (skipped when the load raises), then tie the model weights. -/
def load_automodel_with_no_weights (env : OVEnv) (cfg : OVConfig) :
    Except OVErr Unit × OVConfig × List OVEv :=
  let original_model := cfg.model
  let cfg1 : OVConfig := { cfg with model := ov_no_weights_model_dir env }
  match env.loadAuto cfg1.model with
  | .ok () =>
    (.ok (), { cfg1 with model := original_model },
      [OVEv.createNoWeightsModelEv, OVEv.loadAutoModelEv cfg1.model, OVEv.tieWeightsEv])
  | .error msg =>
    (.error (.libError msg), cfg1,
      [OVEv.createNoWeightsModelEv, OVEv.loadAutoModelEv cfg1.model])

/-- OVBackend.load_ovmodel_with_no_weights: create the no-weights model
directory, repoint config.model at it and force config.export to True,
load, then restore both fields (the restore statements follow the load
call inside the with-block, so they are skipped when the load raises). -/
def load_ovmodel_with_no_weights (env : OVEnv) (cfg : OVConfig) :
    Except OVErr Unit × OVConfig × List OVEv :=
  let original_model := cfg.model
  let original_export := cfg.export_
  let cfg1 : OVConfig := { cfg with model := ov_no_weights_model_dir env, export_ := true }
  match env.loadOV cfg1.model cfg1.export_ with
  | .ok () =>
    (.ok (), { cfg1 with model := original_model, export_ := original_export },
      [OVEv.createNoWeightsModelEv, OVEv.loadOVModelEv cfg1.model true])
  | .error msg =>
    (.error (.libError msg), cfg1,
      [OVEv.createNoWeightsModelEv, OVEv.loadOVModelEv cfg1.model true])

/-- OVBackend.quantize_automodel: build the quantization config and the
quantizer, generate and prune the calibration dataset when calibration is
set, then quantize into the quantized-model directory. -/
def quantize_automodel (env : OVEnv) (cfg : OVConfig) : Except OVErr Unit × List OVEv :=
  if cfg.calibration then
    match env.datasetGenResult with
    | some msg => (.error (.libError msg), [OVEv.generateDatasetEv])
    | none =>
      match env.quantizeResult with
      | some msg => (.error (.libError msg), [OVEv.generateDatasetEv, OVEv.quantizeEv])
      | none => (.ok (), [OVEv.generateDatasetEv, OVEv.quantizeEv])
  else
    match env.quantizeResult with
    | some msg => (.error (.libError msg), [OVEv.quantizeEv])
    | none => (.ok (), [OVEv.quantizeEv])

/-- Result of running OVBackend.__init__. -/
structure OVRun where
  result : Except OVErr Unit
  config : OVConfig
  trace : List OVEv
  ovmodel_class : Option String
deriving Repr, DecidableEq

/-- The automodel-loading step of the quantization path of
OVBackend.__init__: the no-weights variant or the pretrained variant. -/
def ovLoadAutomodel (env : OVEnv) (cfg1 : OVConfig) : Except OVErr Unit × OVConfig × List OVEv :=
  if cfg1.no_weights then load_automodel_with_no_weights env cfg1
  else
    match env.loadAuto cfg1.model with
    | .ok () => (.ok (), cfg1, [OVEv.loadAutoModelEv cfg1.model])
    | .error msg => (.error (.libError msg), cfg1, [OVEv.loadAutoModelEv cfg1.model])

/-- OVBackend.__init__, continued: the quantization path entered when
config.quantization holds, after the automodel has been loaded. -/
def ovQuantPath (env : OVEnv) (cls : String) (cfg2 : OVConfig) (evs : List OVEv) : OVRun :=
  let q := quantize_automodel env cfg2
  match q.1 with
  | .error e =>
    { result := .error e, config := cfg2, trace := evs ++ q.2, ovmodel_class := some cls }
  | .ok () =>
    let original_model := cfg2.model
    let original_export := cfg2.export_
    let cfg3 : OVConfig := { cfg2 with model := ov_quantized_model_dir env, export_ := false }
    match env.loadOV cfg3.model cfg3.export_ with
    | .error msg =>
      { result := .error (.libError msg), config := cfg3,
        trace := evs ++ q.2 ++ [OVEv.loadOVModelEv cfg3.model false],
        ovmodel_class := some cls }
    | .ok () =>
      let cfg4 : OVConfig := { cfg3 with model := original_model, export_ := original_export }
      { result := .ok (), config := cfg4,
        trace := evs ++ q.2 ++ [OVEv.loadOVModelEv cfg3.model false, OVEv.cleanupTmpdirEv],
        ovmodel_class := some cls }

/-- OVBackend.__init__, whole pipeline: validate the task, write
inter_op_num_threads into openvino_config when set (never undone), create
the tmpdir, then either the quantization path (automodel load, quantize,
repoint-and-reload with export forced off, restore on success) or a plain
OVModel load (no-weights variant or pretrained variant), and finally clean
the tmpdir. -/
def ovInit (env : OVEnv) (cfg0 : OVConfig) : OVRun :=
  match ov_validate_task env cfg0 with
  | .error e => { result := .error e, config := cfg0, trace := [], ovmodel_class := none }
  | .ok cls =>
    let cfg1 : OVConfig :=
      match cfg0.inter_op_num_threads with
      | some n => { cfg0 with openvino_config := dictSet cfg0.openvino_config inference_num_threads n }
      | none => cfg0
    let evsA : List OVEv := [OVEv.createTmpdirEv]
    if cfg1.quantization then
      let loaded := ovLoadAutomodel env cfg1
      match loaded.1 with
      | .error e =>
        { result := .error e, config := loaded.2.1, trace := evsA ++ loaded.2.2,
          ovmodel_class := some cls }
      | .ok () => ovQuantPath env cls loaded.2.1 (evsA ++ loaded.2.2)
    else if cfg1.no_weights then
      let loaded := load_ovmodel_with_no_weights env cfg1
      match loaded.1 with
      | .error e =>
        { result := .error e, config := loaded.2.1, trace := evsA ++ loaded.2.2,
          ovmodel_class := some cls }
      | .ok () =>
        { result := .ok (), config := loaded.2.1,
          trace := evsA ++ loaded.2.2 ++ [OVEv.cleanupTmpdirEv], ovmodel_class := some cls }
    else
      match env.loadOV cfg1.model cfg1.export_ with
      | .error msg =>
        { result := .error (.libError msg), config := cfg1,
          trace := evsA ++ [OVEv.loadOVModelEv cfg1.model cfg1.export_], ovmodel_class := some cls }
      | .ok () =>
        { result := .ok (), config := cfg1,
          trace := evsA ++ [OVEv.loadOVModelEv cfg1.model cfg1.export_, OVEv.cleanupTmpdirEv],
          ovmodel_class := some cls }

/-- OVBackend.prepare_inputs (after the base-class call): for the diffusers
library keep only the prompt entry, otherwise pass the mapping through
unchanged. -/
def ov_prepare_inputs (cfg : OVConfig) (inputs : List (String × TensorValue)) :
    Except PrepErr (List (String × TensorValue)) :=
  if cfg.library == "diffusers" then
    match inputs.lookup "prompt" with
    | some v => .ok [("prompt", v)]
    | none => .error (.keyError "prompt")
  else
    .ok inputs

/-! The benchmark-run driver (main.py, function run_experiment). -/

/-- Events of the driver in program order. -/
inductive MainEv where
  | saveConfigEv
  | benchmarkConfigureEv
  | backendAllocEv
  | backendConfigureEv
  | benchmarkRunEv
  | benchmarkSaveEv
  | backendCleanEv
deriving Repr, DecidableEq

/-- Errors the driver can surface to its caller: an exception propagated
from a pipeline step, or an UnboundLocalError (a NameError) from loading a
local variable that is not bound. -/
inductive PyErr where
  | exc (msg : String)
  | unboundLocal (name : String)
deriving Repr, DecidableEq

/-- Environment of the driver: the outcome of the three failable calls
inside its try-block (none means success, some msg means the call raised
an exception with message msg). -/
structure MainEnv where
  configureResult : Option String
  runResult : Option String
  saveResult : Option String

/-- Body of the try-block of run_experiment: backend.configure,
benchmark.run, benchmark.save, backend.clean, in that order, stopping at
the first call that raises. -/
def tryBody (env : MainEnv) : Except String Unit × List MainEv :=
  match env.configureResult with
  | some msg => (.error msg, [MainEv.backendConfigureEv])
  | none =>
    match env.runResult with
    | some msg => (.error msg, [MainEv.backendConfigureEv, MainEv.benchmarkRunEv])
    | none =>
      match env.saveResult with
      | some msg =>
        (.error msg, [MainEv.backendConfigureEv, MainEv.benchmarkRunEv, MainEv.benchmarkSaveEv])
      | none =>
        (.ok (), [MainEv.backendConfigureEv, MainEv.benchmarkRunEv, MainEv.benchmarkSaveEv,
          MainEv.backendCleanEv])

/-- run_experiment from main.py: save the config, configure the benchmark,
allocate the backend, then the try-block; on an exception the handler logs
it, runs backend.clean() and sets raised_error, and on exit from the
handler Python unbinds the except target e, so the later statement
raise e (placed after the handler, guarded by raised_error) loads an
unbound local and raises UnboundLocalError instead of the original
exception. -/
def run_experiment (env : MainEnv) : Except PyErr Unit × List MainEv :=
  let pre := [MainEv.saveConfigEv, MainEv.benchmarkConfigureEv, MainEv.backendAllocEv]
  match tryBody env with
  | (.ok (), evs) => (.ok (), pre ++ evs)
  | (.error _msg, evs) =>
    let eBinding : Option String := none
    match eBinding with
    | some m => (.error (.exc m), pre ++ evs ++ [MainEv.backendCleanEv])
    | none => (.error (.unboundLocal "e"), pre ++ evs ++ [MainEv.backendCleanEv])

/-! Helper lemmas. -/

/-- The quantization loop records only per-file quantizer events: it never
records a config-processing event nor a dataset-generation event. -/
theorem quantize_loop_no_config_events (env : ORTEnv) (cal cb b : Bool) (files : List String) :
    Ev.processQuantConfigEv b ∉ (quantize_loop env cal cb files).2 ∧
    Ev.processCalibConfigEv b ∉ (quantize_loop env cal cb files).2 ∧
    Ev.generateDatasetEv ∉ (quantize_loop env cal cb files).2 := by
  induction files with
  | nil => simp [quantize_loop]
  | cons f fs ih =>
    unfold quantize_loop
    rcases env.fitResult with _ | m1 <;> rcases env.quantizeResult with _ | m2 <;>
      cases cal <;> cases cb <;> simp_all

/-- The config field of the pipeline tail (provider validation plus final
cleanup) is the config it was entered with, on both outcomes. -/
theorem ortFinish_config (cls : String) (c : ORTConfig) (m : PretrainedModel) (evs : List Ev) :
    (ortFinish cls c m evs).config = c := by
  unfold ortFinish
  split <;> rfl

/-! C2. -/

/-- C2: for every configuration requesting calibration whose model directory
holds more than one onnx component, quantize_onnx_files raises the
multi-component NotImplementedError, and its trace contains neither a
dataset-generation event nor any quantization event: the calibration
dataset generator is never invoked and no quantization work begins. -/
theorem C2_calibrated_multi_component_rejected_before_any_work
    (env : ORTEnv) (cfg : ORTConfig) (files : List String)
    (hcal : is_calibrated cfg = true)
    (hfiles : onnx_files_names env cfg = .ok files)
    (hlen : 1 < files.length) :
    (quantize_onnx_files env cfg).1 = .error (.multiComponentCalibration files.length) ∧
    Ev.generateDatasetEv ∉ (quantize_onnx_files env cfg).2 ∧
    ∀ f, Ev.quantizeFileEv f ∉ (quantize_onnx_files env cfg).2 := by
  simp [quantize_onnx_files, hcal, hfiles, hlen]

/-- Environment with a two-component onnx model directory. -/
def envC2 : ORTEnv :=
  { lookupSD := fun _ => none
    lookupORT := fun _ => some "optimum.onnxruntime.ORTModelForSeq2SeqLM"
    tmpdirName := "/tmp/ort"
    load := fun _ _ => .ok ⟨["CPUExecutionProvider"], "/tmp/save", none, none⟩
    isdir := fun _ => true
    listdir := fun _ => ["encoder_model.onnx", "decoder_model.onnx"]
    optimizeResult := none
    datasetGenResult := none
    fitResult := none
    quantizeResult := none }

/-- Configuration requesting quantization with calibration. -/
def cfgC2 : ORTConfig :=
  { task := "text2text-generation", model := "hub/model", device := "cpu"
    provider := "CPUExecutionProvider", library := "transformers"
    no_weights := false, export_ := true, use_merged := false, session_options := []
    optimization := false, auto_optimization := none
    quantization := true, auto_quantization := none
    calibration := true, auto_calibration := none }

/-- Witness for C2 at a concrete two-component configuration. -/
theorem C2_witness :
    (quantize_onnx_files envC2 cfgC2).1 = .error (.multiComponentCalibration 2) ∧
    Ev.generateDatasetEv ∉ (quantize_onnx_files envC2 cfgC2).2 := by
  have h := C2_calibrated_multi_component_rejected_before_any_work envC2 cfgC2
    ["encoder_model.onnx", "decoder_model.onnx"] (by decide) (by decide) (by decide)
  exact ⟨h.1, h.2.1⟩

/-! C3. -/

/-- C3: when both the manual flag and the auto preset are set, for
optimization, quantization and calibration alike, the auto-preset path is
the one taken and the manual path is never entered. -/
theorem C3_auto_preset_takes_precedence
    (env : ORTEnv) (cfg : ORTConfig) (po pq pc : String) (files : List String)
    (hao : cfg.auto_optimization = some po) ( _hmo : cfg.optimization = true)
    (haq : cfg.auto_quantization = some pq) ( _hmq : cfg.quantization = true)
    (hac : cfg.auto_calibration = some pc) ( _hmc : cfg.calibration = true)
    (hfiles : onnx_files_names env cfg = .ok files) (hlen : files.length ≤ 1)
    (hgen : env.datasetGenResult = none) :
    (Ev.processOptConfigEv true ∈ (optimize_onnx_files env cfg).2 ∧
     Ev.processOptConfigEv false ∉ (optimize_onnx_files env cfg).2) ∧
    (Ev.processQuantConfigEv true ∈ (quantize_onnx_files env cfg).2 ∧
     Ev.processQuantConfigEv false ∉ (quantize_onnx_files env cfg).2) ∧
    (Ev.processCalibConfigEv true ∈ (quantize_onnx_files env cfg).2 ∧
     Ev.processCalibConfigEv false ∉ (quantize_onnx_files env cfg).2) := by
  have hlen2 : ¬ (1 < files.length) := by omega
  have hcal : is_calibrated cfg = true := by simp [is_calibrated, hac]
  refine ⟨?_, ?_, ?_⟩
  · simp only [optimize_onnx_files, hao, Option.isSome_some, if_true, hfiles]
    cases env.optimizeResult <;> simp
  · have hloop := quantize_loop_no_config_events env true true false files
    simp only [quantize_onnx_files, hcal, hfiles, hlen2, haq, hac, hgen,
      Option.isSome_some, if_true, if_false]
    constructor
    · simp
    · simp only [List.append_assoc, List.mem_append, List.mem_cons, List.not_mem_nil]
      simp [hloop.1]
  · have hloop := quantize_loop_no_config_events env true true false files
    simp only [quantize_onnx_files, hcal, hfiles, hlen2, haq, hac, hgen,
      Option.isSome_some, if_true, if_false]
    constructor
    · simp
    · simp only [List.append_assoc, List.mem_append, List.mem_cons, List.not_mem_nil]
      simp [hloop.2.1]

/-- Environment with a single-component onnx model directory. -/
def envC3 : ORTEnv :=
  { lookupSD := fun _ => none
    lookupORT := fun _ => some "optimum.onnxruntime.ORTModelForFeatureExtraction"
    tmpdirName := "/tmp/ort"
    load := fun _ _ => .ok ⟨["CPUExecutionProvider"], "/tmp/save", none, none⟩
    isdir := fun _ => true
    listdir := fun _ => ["model.onnx"]
    optimizeResult := none
    datasetGenResult := none
    fitResult := none
    quantizeResult := none }

/-- Configuration with manual and auto variants set simultaneously for all
three of optimization, quantization and calibration. -/
def cfgC3 : ORTConfig :=
  { task := "feature-extraction", model := "hub/model", device := "cpu"
    provider := "CPUExecutionProvider", library := "transformers"
    no_weights := false, export_ := true, use_merged := false, session_options := []
    optimization := true, auto_optimization := some "O2"
    quantization := true, auto_quantization := some "avx2"
    calibration := true, auto_calibration := some "minmax" }

/-- Witness for C3 at a concrete configuration with every manual flag and
every auto preset set at once. -/
theorem C3_witness :
    Ev.processOptConfigEv true ∈ (optimize_onnx_files envC3 cfgC3).2 ∧
    Ev.processOptConfigEv false ∉ (optimize_onnx_files envC3 cfgC3).2 ∧
    Ev.processQuantConfigEv true ∈ (quantize_onnx_files envC3 cfgC3).2 ∧
    Ev.processQuantConfigEv false ∉ (quantize_onnx_files envC3 cfgC3).2 ∧
    Ev.processCalibConfigEv true ∈ (quantize_onnx_files envC3 cfgC3).2 ∧
    Ev.processCalibConfigEv false ∉ (quantize_onnx_files envC3 cfgC3).2 := by
  have h := C3_auto_preset_takes_precedence envC3 cfgC3 "O2" "avx2" "minmax" ["model.onnx"]
    rfl rfl rfl rfl rfl rfl (by decide) (by decide) rfl
  exact ⟨h.1.1, h.1.2, h.2.1.1, h.2.1.2, h.2.2.1, h.2.2.2⟩

/-! C1. -/

/-- When the no-weights load succeeds, the configuration handed back has its
model reference restored (and its export flag untouched). -/
theorem load_ortmodel_with_no_weights_ok_config (env : ORTEnv) (cfg : ORTConfig)
    (m : PretrainedModel) (c1 : ORTConfig) (evs : List Ev)
    (h : load_ortmodel_with_no_weights env cfg = (.ok m, c1, evs)) :
    c1.model = cfg.model ∧ c1.export_ = cfg.export_ := by
  simp only [load_ortmodel_with_no_weights] at h
  split at h
  · simp only [Prod.mk.injEq, Except.ok.injEq] at h
    obtain ⟨_, h1, _⟩ := h
    subst h1
    exact ⟨rfl, rfl⟩
  · simp at h

/-- On a successful run of the optimize/quantize/reload section, the
configuration comes out with the model and export fields it went in
with. -/
theorem ortStages_ok_restores (env : ORTEnv) (cls : String) (c : ORTConfig)
    (m : PretrainedModel) (evs : List Ev) :
    (ortStages env cls c m evs).result = .ok () →
    (ortStages env cls c m evs).config.model = c.model ∧
    (ortStages env cls c m evs).config.export_ = c.export_ := by
  simp only [ortStages]
  split
  · simp
  · rename_i x cfg3 evsO hopt
    split
    · simp
    · rename_i y cfg4 evsQ hquant
      split
      · simp
      · rename_i m2 evsL hload
        intro _
        rw [ortFinish_config]
        have h3 : cfg3.export_ = c.export_ := by
          split at hopt
          · split at hopt
            · simp only [Prod.mk.injEq, Except.ok.injEq] at hopt
              obtain ⟨h1, _⟩ := hopt
              subst h1
              rfl
            · simp at hopt
          · simp only [Prod.mk.injEq, Except.ok.injEq] at hopt
            obtain ⟨h1, _⟩ := hopt
            subst h1
            rfl
        have h4 : cfg4.export_ = cfg3.export_ := by
          split at hquant
          · split at hquant
            · simp only [Prod.mk.injEq, Except.ok.injEq] at hquant
              obtain ⟨h1, _⟩ := hquant
              subst h1
              rfl
            · simp at hquant
          · simp only [Prod.mk.injEq, Except.ok.injEq] at hquant
            obtain ⟨h1, _⟩ := hquant
            subst h1
            rfl
        exact ⟨rfl, h4.trans h3⟩

/-- C1 (amended): when the whole pipeline, including the Optimize/Quantize
stages and the subsequent reload, completes successfully, the
configuration observed by the caller has the model and export fields it
started with; a stage that raises leaves the stage-local values in
place. -/
theorem C1_fields_restored_on_success (env : ORTEnv) (cfg : ORTConfig) :
    (ortInit env cfg).result = .ok () →
    (ortInit env cfg).config.model = cfg.model ∧
    (ortInit env cfg).config.export_ = cfg.export_ := by
  simp only [ortInit]
  split
  · simp
  · rename_i cls hcls
    split
    · simp
    · rename_i x m cfg1 evsB hloaded
      have h1 : cfg1.model = cfg.model ∧ cfg1.export_ = cfg.export_ := by
        split at hloaded
        · exact load_ortmodel_with_no_weights_ok_config env cfg m cfg1 evsB hloaded
        · simp only [Prod.mk.injEq] at hloaded
          obtain ⟨_, hc, _⟩ := hloaded
          subst hc
          exact ⟨rfl, rfl⟩
      split
      · intro hres
        have h2 := ortStages_ok_restores env cls cfg1 m _ hres
        exact ⟨h2.1.trans h1.1, h2.2.trans h1.2⟩
      · intro _
        rw [ortFinish_config]
        exact h1

/-- Environment for the C1 counterexample: every external call succeeds
except the graph optimizer, which raises. -/
def envC1 : ORTEnv :=
  { lookupSD := fun _ => none
    lookupORT := fun _ => some "optimum.onnxruntime.ORTModelForFeatureExtraction"
    tmpdirName := "/tmp/ort"
    load := fun _ _ => .ok ⟨["CPUExecutionProvider"], "/tmp/save", none, none⟩
    isdir := fun _ => true
    listdir := fun _ => ["model.onnx"]
    optimizeResult := some "optimization failed"
    datasetGenResult := none
    fitResult := none
    quantizeResult := none }

/-- Configuration for the C1 counterexample: manual optimization
requested. -/
def cfgC1 : ORTConfig :=
  { task := "feature-extraction", model := "hub/model", device := "cpu"
    provider := "CPUExecutionProvider", library := "transformers"
    no_weights := false, export_ := true, use_merged := false, session_options := []
    optimization := true, auto_optimization := none
    quantization := false, auto_quantization := none
    calibration := false, auto_calibration := none }

/-- C1 counterexample: the Optimize stage raises, and afterwards the
configuration model field no longer equals its pre-stage value, so the
claim that the fields are restored whether the stage succeeds or raises is
false on the code. -/
theorem C1_counterexample :
    (ortInit envC1 cfgC1).result = .error (.libError "optimization failed") ∧
    (ortInit envC1 cfgC1).config.model = "/tmp/save" ∧
    cfgC1.model = "hub/model" := by
  refine ⟨?_, ?_, rfl⟩ <;> rfl

/-- Environment for the C1 witness: every external call succeeds. -/
def envC1w : ORTEnv :=
  { lookupSD := fun _ => none
    lookupORT := fun _ => some "optimum.onnxruntime.ORTModelForFeatureExtraction"
    tmpdirName := "/tmp/ort"
    load := fun _ _ => .ok ⟨["CPUExecutionProvider"], "/tmp/save", none, none⟩
    isdir := fun _ => true
    listdir := fun _ => ["model.onnx"]
    optimizeResult := none
    datasetGenResult := none
    fitResult := none
    quantizeResult := none }

/-- Witness for C1 at a concrete successful optimized run. -/
theorem C1_witness :
    (ortInit envC1w cfgC1).config.model = cfgC1.model ∧
    (ortInit envC1w cfgC1).config.export_ = cfgC1.export_ :=
  C1_fields_restored_on_success envC1w cfgC1 (by rfl)

/-! C4. -/

/-- Environment for C4: the benchmark run raises. -/
def envC4 : MainEnv :=
  { configureResult := none, runResult := some "boom", saveResult := none }

/-- C4: when the run phase raises, the driver does run backend cleanup, but
the final raise statement sits after the except handler, whose target
variable has been unbound on handler exit, so the driver surfaces an
UnboundLocalError instead of re-raising the original error: the original
error is not propagated to the caller. -/
theorem C4_cleanup_runs_but_original_error_not_reraised :
    (run_experiment envC4).1 = .error (.unboundLocal "e") ∧
    (run_experiment envC4).1 ≠ .error (.exc "boom") ∧
    MainEv.backendCleanEv ∈ (run_experiment envC4).2 := by
  refine ⟨rfl, ?_, ?_⟩ <;> decide

/-- The failure path of the driver in general: whichever step of the try
block raises, the handler runs backend cleanup and the function then
surfaces an UnboundLocalError in place of the original exception. -/
theorem run_experiment_failure_path (env : MainEnv) (msg : String) (evs : List MainEv)
    (h : tryBody env = (.error msg, evs)) :
    (run_experiment env).1 = .error (.unboundLocal "e") ∧
    MainEv.backendCleanEv ∈ (run_experiment env).2 := by
  simp [run_experiment, h]

/-- Witness for the general failure-path theorem at a concrete failing
run. -/
theorem run_experiment_failure_path_witness :
    (run_experiment envC4).1 = .error (.unboundLocal "e") ∧
    MainEv.backendCleanEv ∈ (run_experiment envC4).2 :=
  run_experiment_failure_path envC4 "boom"
    [MainEv.backendConfigureEv, MainEv.benchmarkRunEv] rfl

/-! C5. -/

/-- C5 (amended): after the final load the backend raises a provider
mismatch exactly when the first active provider differs from the
configured one; on that failure, however, the pipeline ends at the
validation event and the workspace-cleanup call is skipped rather than
still executed. -/
theorem C5_provider_validated_cleanup_skipped :
    (∀ (cfg : ORTConfig) (m : PretrainedModel) (p : String) (ps : List String),
      m.providers = p :: ps →
      ((validate_provider cfg m = .ok ()) ↔ p = cfg.provider) ∧
      (p ≠ cfg.provider →
        validate_provider cfg m = .error (.providerMismatch cfg.provider m.providers))) ∧
    (∀ (cls : String) (cfg : ORTConfig) (m : PretrainedModel) (evs : List Ev) (e : ORTErr),
      validate_provider cfg m = .error e →
      (ortFinish cls cfg m evs).result = .error e ∧
      (ortFinish cls cfg m evs).trace = evs ++ [Ev.validateProviderEv]) := by
  constructor
  · intro cfg m p ps hp
    constructor
    · unfold validate_provider
      rw [hp]
      by_cases h : p = cfg.provider <;> simp [h]
    · intro hne
      unfold validate_provider
      rw [hp]
      simp [hne]
  · intro cls cfg m evs e hv
    unfold ortFinish
    rw [hv]
    exact ⟨rfl, rfl⟩

/-- Environment for the C5 counterexample: the loaded model comes back with
a different first provider than the configured one. -/
def envC5 : ORTEnv :=
  { lookupSD := fun _ => none
    lookupORT := fun _ => some "optimum.onnxruntime.ORTModelForFeatureExtraction"
    tmpdirName := "/tmp/ort"
    load := fun _ _ => .ok ⟨["CUDAExecutionProvider"], "/tmp/save", none, none⟩
    isdir := fun _ => true
    listdir := fun _ => ["model.onnx"]
    optimizeResult := none
    datasetGenResult := none
    fitResult := none
    quantizeResult := none }

/-- Configuration for the C5 counterexample. -/
def cfgC5 : ORTConfig :=
  { task := "feature-extraction", model := "hub/model", device := "cpu"
    provider := "CPUExecutionProvider", library := "transformers"
    no_weights := false, export_ := true, use_merged := false, session_options := []
    optimization := false, auto_optimization := none
    quantization := false, auto_quantization := none
    calibration := false, auto_calibration := none }

/-- The model loaded in the C5 scenarios. -/
def pmC5 : PretrainedModel :=
  ⟨["CUDAExecutionProvider"], "/tmp/save", none, none⟩

/-- C5 counterexample: on a provider mismatch the pipeline raises, and no
workspace-cleanup event is in the trace, so the part of the claim stating
that cleanup still executes on this failure is false on the code. -/
theorem C5_counterexample :
    (ortInit envC5 cfgC5).result =
      .error (.providerMismatch "CPUExecutionProvider" ["CUDAExecutionProvider"]) ∧
    Ev.cleanupTmpdirEv ∉ (ortInit envC5 cfgC5).trace := by
  refine ⟨rfl, ?_⟩
  decide

/-- Witness for C5 at a concrete mismatching provider pair. -/
theorem C5_witness :
    validate_provider cfgC5 pmC5 =
      .error (.providerMismatch "CPUExecutionProvider" ["CUDAExecutionProvider"]) ∧
    (ortFinish "cls" cfgC5 pmC5 []).trace = [Ev.validateProviderEv] := by
  have h1 := (C5_provider_validated_cleanup_skipped.1 cfgC5 pmC5
    "CUDAExecutionProvider" [] rfl).2 (by decide)
  have h2 := C5_provider_validated_cleanup_skipped.2 "cls" cfgC5 pmC5 [] _ h1
  exact ⟨h1, by simpa using h2.2⟩

/-! C6. -/

/-- The pipeline tail stores the resolved loader class on both outcomes. -/
theorem ortFinish_class (cls : String) (c : ORTConfig) (m : PretrainedModel) (evs : List Ev) :
    (ortFinish cls c m evs).ortmodel_class = some cls := by
  unfold ortFinish
  split <;> rfl

/-- The optimize/quantize/reload section stores the resolved loader class on
every outcome. -/
theorem ortStages_class (env : ORTEnv) (cls : String) (c : ORTConfig) (m : PretrainedModel)
    (evs : List Ev) : (ortStages env cls c m evs).ortmodel_class = some cls := by
  simp only [ortStages]
  repeat' split
  all_goals first | rfl | apply ortFinish_class

/-- C6: a task with no registered loader class makes construction fail with
the unsupported-task error before any event at all (no workspace creation,
no load, no other I/O), for both backends; for a supported task the
resolved loader class is stored for the lifetime of the backend, whatever
the rest of the pipeline does. -/
theorem C6_unsupported_task_fails_before_io :
    (∀ (env : ORTEnv) (cfg : ORTConfig),
      env.lookupSD cfg.task = none → env.lookupORT cfg.task = none →
      (ortInit env cfg).result = .error (.unsupportedTask cfg.task) ∧
      (ortInit env cfg).trace = []) ∧
    (∀ (env : ORTEnv) (cfg : ORTConfig) (cls : String),
      validate_task env cfg = .ok cls →
      (ortInit env cfg).ortmodel_class = some cls) ∧
    (∀ (env : OVEnv) (cfg : OVConfig),
      env.lookupOV cfg.task = none →
      (ovInit env cfg).result = .error (.unsupportedTask cfg.task) ∧
      (ovInit env cfg).trace = []) := by
  refine ⟨?_, ?_, ?_⟩
  · intro env cfg h1 h2
    simp [ortInit, validate_task, h1, h2]
  · intro env cfg cls hv
    simp only [ortInit, hv]
    repeat' split
    all_goals first | rfl | apply ortStages_class | apply ortFinish_class
  · intro env cfg h
    simp [ovInit, ov_validate_task, h]

/-- Environment for the C6 witness: no table contains the task. -/
def envC6 : ORTEnv :=
  { lookupSD := fun _ => none
    lookupORT := fun t => if t == "feature-extraction" then some "ORTModelForFeatureExtraction" else none
    tmpdirName := "/tmp/ort"
    load := fun _ _ => .ok ⟨["CPUExecutionProvider"], "/tmp/save", none, none⟩
    isdir := fun _ => true
    listdir := fun _ => ["model.onnx"]
    optimizeResult := none
    datasetGenResult := none
    fitResult := none
    quantizeResult := none }

/-- Configuration with a task supported by no loader table. -/
def cfgC6 : ORTConfig :=
  { task := "automatic-speech-recognition", model := "hub/model", device := "cpu"
    provider := "CPUExecutionProvider", library := "transformers"
    no_weights := false, export_ := true, use_merged := false, session_options := []
    optimization := false, auto_optimization := none
    quantization := false, auto_quantization := none
    calibration := false, auto_calibration := none }

/-- Configuration whose task the loader table does support. -/
def cfgC6s : ORTConfig :=
  { cfgC6 with task := "feature-extraction" }

/-- Witness for C6: a concrete unsupported task fails with an empty trace,
and a concrete supported task has its resolved class stored. -/
theorem C6_witness :
    ((ortInit envC6 cfgC6).result = .error (.unsupportedTask "automatic-speech-recognition") ∧
      (ortInit envC6 cfgC6).trace = []) ∧
    (ortInit envC6 cfgC6s).ortmodel_class = some "ORTModelForFeatureExtraction" := by
  constructor
  · have h := C6_unsupported_task_fails_before_io.1 envC6 cfgC6 rfl (by decide)
    exact ⟨h.1, h.2⟩
  · exact C6_unsupported_task_fails_before_io.2.1 envC6 cfgC6s
      "ORTModelForFeatureExtraction" (by decide)

/-! C7. -/

/-- C7 (amended): for the diffusers library prepare_inputs keeps only the
prompt entry; otherwise every retained non-problematic input is moved to
the configured device, and a problematic input is dropped exactly when the
loaded model does not declare it, but when retained it is passed through
on its original device rather than moved. -/
theorem C7_prepare_inputs_behavior (cfg : ORTConfig) (names : List String)
    (inputs : List (String × TensorValue)) :
    (cfg.library ≠ "diffusers" →
      ∃ l, prepare_inputs cfg names inputs = .ok l ∧
        (∀ k v, (k, v) ∈ l →
          (k ∉ PROBLEMATIC_INPUTS → v.device = cfg.device) ∧
          (k ∈ PROBLEMATIC_INPUTS → k ∈ names ∧ (k, v) ∈ inputs)) ∧
        (∀ k v, (k, v) ∈ inputs → k ∈ PROBLEMATIC_INPUTS → k ∉ names →
          k ∉ l.map Prod.fst) ∧
        (∀ k v, (k, v) ∈ inputs → k ∉ PROBLEMATIC_INPUTS →
          (k, moveTo v cfg.device) ∈ l)) ∧
    (cfg.library = "diffusers" → ∀ v, inputs.lookup "prompt" = some v →
      prepare_inputs cfg names inputs = .ok [("prompt", v)]) := by
  constructor
  · intro hlib
    have hbeq : (cfg.library == "diffusers") = false := by
      simpa using hlib
    refine ⟨inputs.filterMap fun kv =>
      if kv.1 ∈ PROBLEMATIC_INPUTS then if kv.1 ∈ names then some kv else none
      else some (kv.1, moveTo kv.2 cfg.device), by simp [prepare_inputs, hbeq], ?_, ?_, ?_⟩
    · intro k v hkv
      rw [List.mem_filterMap] at hkv
      obtain ⟨⟨k0, v0⟩, hin, hf⟩ := hkv
      by_cases hp : k0 ∈ PROBLEMATIC_INPUTS
      · by_cases hn : k0 ∈ names
        · simp only [hp, hn, if_true, ite_true, Option.some.injEq, Prod.mk.injEq] at hf
          obtain ⟨rfl, rfl⟩ := hf
          exact ⟨fun hcon => absurd hp hcon, fun _ => ⟨hn, hin⟩⟩
        · simp [hp, hn] at hf
      · simp only [hp, if_false, ite_false, Option.some.injEq, Prod.mk.injEq] at hf
        obtain ⟨rfl, rfl⟩ := hf
        exact ⟨fun _ => rfl, fun hcon => absurd hcon hp⟩
    · intro k v hin hp hn hmap
      rw [List.mem_map] at hmap
      obtain ⟨⟨k1, v1⟩, hmem, hk1⟩ := hmap
      simp only at hk1
      subst hk1
      rw [List.mem_filterMap] at hmem
      obtain ⟨⟨k0, v0⟩, hin0, hf⟩ := hmem
      by_cases hp0 : k0 ∈ PROBLEMATIC_INPUTS
      · by_cases hn0 : k0 ∈ names
        · simp only [hp0, hn0, if_true, ite_true, Option.some.injEq, Prod.mk.injEq] at hf
          obtain ⟨rfl, rfl⟩ := hf
          exact hn hn0
        · simp [hp0, hn0] at hf
      · simp only [hp0, if_false, ite_false, Option.some.injEq, Prod.mk.injEq] at hf
        obtain ⟨rfl, rfl⟩ := hf
        exact hp0 hp
    · intro k v hin hp
      rw [List.mem_filterMap]
      exact ⟨(k, v), hin, by simp [hp]⟩
  · intro hlib v hv
    simp [prepare_inputs, hlib, hv]

/-- Configuration for the C7 counterexample: a cuda device with a
non-diffusers library. -/
def cfgC7 : ORTConfig :=
  { task := "text-classification", model := "hub/model", device := "cuda"
    provider := "CUDAExecutionProvider", library := "transformers"
    no_weights := false, export_ := true, use_merged := false, session_options := []
    optimization := false, auto_optimization := none
    quantization := false, auto_quantization := none
    calibration := false, auto_calibration := none }

/-- C7 counterexample: token_type_ids is declared by the model, so it is
retained, yet it stays on its original device instead of being moved to
the configured one, refuting the claim that every retained tensor input is
moved to the target device. -/
theorem C7_counterexample :
    prepare_inputs cfgC7 ["input_ids", "token_type_ids"]
      [("input_ids", ⟨"cpu"⟩), ("token_type_ids", ⟨"cpu"⟩)] =
      .ok [("input_ids", ⟨"cuda"⟩), ("token_type_ids", ⟨"cpu"⟩)] ∧
    ("cpu" : String) ≠ "cuda" := by
  exact ⟨rfl, by decide⟩

/-- Witness for C7: the diffusers branch keeps only the prompt entry, and
the non-diffusers branch moves a plain input to the device. -/
theorem C7_witness :
    prepare_inputs { cfgC7 with library := "diffusers" } []
      [("prompt", ⟨"cpu"⟩), ("input_ids", ⟨"cpu"⟩)] = .ok [("prompt", ⟨"cpu"⟩)] ∧
    ("input_ids", moveTo ⟨"cpu"⟩ cfgC7.device) ∈
      [("input_ids", (⟨"cuda"⟩ : TensorValue))] := by
  constructor
  · exact (C7_prepare_inputs_behavior { cfgC7 with library := "diffusers" } []
      [("prompt", ⟨"cpu"⟩), ("input_ids", ⟨"cpu"⟩)]).2 rfl ⟨"cpu"⟩ rfl
  · have h := (C7_prepare_inputs_behavior cfgC7 []
      [("input_ids", ⟨"cpu"⟩)]).1 (by decide)
    obtain ⟨l, hl, _, _, hmove⟩ := h
    have hm := hmove "input_ids" ⟨"cpu"⟩ (by simp) (by decide)
    have hleq : l = [("input_ids", (⟨"cuda"⟩ : TensorValue))] := by
      have : prepare_inputs cfgC7 [] [("input_ids", ⟨"cpu"⟩)] =
          .ok [("input_ids", (⟨"cuda"⟩ : TensorValue))] := rfl
      rw [this] at hl
      exact (Except.ok.inj hl).symm
    rw [hleq] at hm
    simpa using hm

/-! C9. -/

/-- C9: a loaded model declaring neither inputs_names nor input_names makes
the backend input-name list empty, and prepare_inputs then drops every
problematic input whatever the model would actually accept. -/
theorem C9_missing_name_attrs_drop_all_problematic (m : PretrainedModel)
    (h1 : m.inputs_names_attr = none) (h2 : m.input_names_attr = none) :
    inputs_names m = [] ∧
    ∀ (cfg : ORTConfig) (inputs : List (String × TensorValue)) (k : String)
      (l : List (String × TensorValue)),
      cfg.library ≠ "diffusers" → k ∈ PROBLEMATIC_INPUTS →
      prepare_inputs cfg (inputs_names m) inputs = .ok l →
      k ∉ l.map Prod.fst := by
  have hnames : inputs_names m = [] := by simp [inputs_names, h1, h2]
  refine ⟨hnames, ?_⟩
  intro cfg inputs k l hlib hk hprep hmap
  rw [hnames] at hprep
  have hbeq : (cfg.library == "diffusers") = false := by simpa using hlib
  simp only [prepare_inputs, hbeq, Bool.false_eq_true, if_false, ite_false,
    Except.ok.injEq] at hprep
  subst hprep
  rw [List.mem_map] at hmap
  obtain ⟨⟨k1, v1⟩, hmem, hk1⟩ := hmap
  simp only at hk1
  subst hk1
  rw [List.mem_filterMap] at hmem
  obtain ⟨⟨k0, v0⟩, hin0, hf⟩ := hmem
  by_cases hp0 : k0 ∈ PROBLEMATIC_INPUTS
  · simp [hp0] at hf
  · simp only [hp0, if_false, ite_false, Option.some.injEq, Prod.mk.injEq] at hf
    obtain ⟨rfl, rfl⟩ := hf
    exact hp0 hk

/-- A model with neither input-name attribute. -/
def pmC9 : PretrainedModel :=
  ⟨["CPUExecutionProvider"], "/tmp/save", none, none⟩

/-- Configuration for the C9 witness. -/
def cfgC9 : ORTConfig :=
  { task := "text-classification", model := "hub/model", device := "cuda"
    provider := "CUDAExecutionProvider", library := "transformers"
    no_weights := false, export_ := true, use_merged := false, session_options := []
    optimization := false, auto_optimization := none
    quantization := false, auto_quantization := none
    calibration := false, auto_calibration := none }

/-- Witness for C9: at a concrete model with no input-name attributes, a
declared-looking token_type_ids input is still dropped. -/
theorem C9_witness :
    inputs_names pmC9 = [] ∧
    ("token_type_ids" : String) ∉
      (List.map Prod.fst [("input_ids", (⟨"cuda"⟩ : TensorValue))]) := by
  have h := C9_missing_name_attrs_drop_all_problematic pmC9 rfl rfl
  refine ⟨h.1, ?_⟩
  exact h.2 cfgC9 [("input_ids", ⟨"cpu"⟩), ("token_type_ids", ⟨"cpu"⟩)]
    "token_type_ids" [("input_ids", ⟨"cuda"⟩)] (by decide) (by decide) (by rw [h.1]; rfl)

/-! C8. -/

/-- Looking up the key just written by a Python-style dict assignment gives
the assigned value. -/
theorem dictSet_lookup (d : List (String × Int)) (k : String) (v : Int) :
    (dictSet d k v).lookup k = some v := by
  induction d with
  | nil => simp [dictSet, List.lookup]
  | cons p rest ih =>
    obtain ⟨k1, v1⟩ := p
    by_cases h : k1 = k
    · simp [dictSet, h, List.lookup]
    · have hb : (k1 == k) = false := by simpa using h
      have hb2 : (k == k1) = false := by simpa using Ne.symm h
      simp [dictSet, hb, hb2, List.lookup, ih]

/-- The no-weights automodel load does not touch openvino_config. -/
theorem load_automodel_with_no_weights_keeps_ov_config (env : OVEnv) (c : OVConfig) :
    ((load_automodel_with_no_weights env c).2.1).openvino_config = c.openvino_config := by
  simp only [load_automodel_with_no_weights]
  split <;> rfl

/-- The no-weights OVModel load does not touch openvino_config. -/
theorem load_ovmodel_with_no_weights_keeps_ov_config (env : OVEnv) (c : OVConfig) :
    ((load_ovmodel_with_no_weights env c).2.1).openvino_config = c.openvino_config := by
  simp only [load_ovmodel_with_no_weights]
  split <;> rfl

/-- The automodel-loading step does not touch openvino_config. -/
theorem ovLoadAutomodel_keeps_ov_config (env : OVEnv) (c : OVConfig) :
    ((ovLoadAutomodel env c).2.1).openvino_config = c.openvino_config := by
  simp only [ovLoadAutomodel]
  split
  · exact load_automodel_with_no_weights_keeps_ov_config env c
  · split <;> rfl

/-- The quantization path does not touch openvino_config. -/
theorem ovQuantPath_keeps_ov_config (env : OVEnv) (cls : String) (c : OVConfig)
    (evs : List OVEv) :
    (ovQuantPath env cls c evs).config.openvino_config = c.openvino_config := by
  simp only [ovQuantPath]
  split
  · rfl
  · split <;> rfl

/-- C8: with inter_op_num_threads set, construction writes the thread count
into the openvino_config mapping of the configuration and never removes
it: whatever the rest of the pipeline does, the caller sees the durably
mutated mapping afterwards. -/
theorem C8_inter_op_num_threads_durably_written (env : OVEnv) (cfg : OVConfig)
    (n : Int) (cls : String)
    (htask : env.lookupOV cfg.task = some cls)
    (hthreads : cfg.inter_op_num_threads = some n) :
    ((ovInit env cfg).config.openvino_config).lookup inference_num_threads = some n := by
  have hdict := dictSet_lookup cfg.openvino_config inference_num_threads n
  simp only [ovInit, ov_validate_task, htask, hthreads]
  repeat' split
  all_goals
    simp [ovQuantPath_keeps_ov_config, ovLoadAutomodel_keeps_ov_config,
      load_ovmodel_with_no_weights_keeps_ov_config, hdict]

/-- Environment for the C8 witness. -/
def envC8 : OVEnv :=
  { lookupOV := fun _ => some "optimum.intel.openvino.OVModelForFeatureExtraction"
    tmpdirName := "/tmp/ov"
    loadAuto := fun _ => .ok ()
    loadOV := fun _ _ => .ok ()
    datasetGenResult := none
    quantizeResult := none }

/-- Configuration for the C8 witness: a thread count is configured. -/
def cfgC8 : OVConfig :=
  { task := "feature-extraction", model := "hub/model", device := "cpu"
    library := "transformers", no_weights := false, export_ := true
    quantization := false, calibration := false
    inter_op_num_threads := some 4, openvino_config := [] }

/-- Witness for C8 at a concrete configuration. -/
theorem C8_witness :
    ((ovInit envC8 cfgC8).config.openvino_config).lookup inference_num_threads = some 4 :=
  C8_inter_op_num_threads_durably_written envC8 cfgC8 4
    "optimum.intel.openvino.OVModelForFeatureExtraction" rfl rfl

/-! C10. -/

/-- The no-weights OVModel load always issues its from_pretrained call with
the synthetic directory as the model and with export forced to true. -/
theorem load_ovmodel_with_no_weights_trace (env : OVEnv) (c : OVConfig) :
    OVEv.loadOVModelEv (ov_no_weights_model_dir env) true ∈
      (load_ovmodel_with_no_weights env c).2.2 := by
  simp only [load_ovmodel_with_no_weights]
  rcases env.loadOV (ov_no_weights_model_dir env) true with msg | u <;> simp

/-- When the no-weights OVModel load succeeds, the configuration handed
back has its model and export fields restored. -/
theorem load_ovmodel_with_no_weights_ok_restores (env : OVEnv) (c : OVConfig) :
    (load_ovmodel_with_no_weights env c).1 = .ok () →
    ((load_ovmodel_with_no_weights env c).2.1).model = c.model ∧
    ((load_ovmodel_with_no_weights env c).2.1).export_ = c.export_ := by
  simp only [load_ovmodel_with_no_weights]
  rcases env.loadOV (ov_no_weights_model_dir env) true with msg | u <;> simp

/-- C10: an openvino no-weights load without quantization issues its
from_pretrained call with the synthetic no-weights directory as the model
and with export forced to true whatever the configured value was, and on
a successful return the configuration model and export fields are
restored to their original values. -/
theorem C10_no_weights_load_forces_export_then_restores (env : OVEnv) (cfg : OVConfig)
    (cls : String) (htask : env.lookupOV cfg.task = some cls)
    (hq : cfg.quantization = false) (hnw : cfg.no_weights = true) :
    OVEv.loadOVModelEv (ov_no_weights_model_dir env) true ∈ (ovInit env cfg).trace ∧
    ((ovInit env cfg).result = .ok () →
      (ovInit env cfg).config.model = cfg.model ∧
      (ovInit env cfg).config.export_ = cfg.export_) := by
  simp only [ovInit, ov_validate_task, htask]
  rcases cfg.inter_op_num_threads with _ | n <;>
    simp only [hq, hnw, Bool.false_eq_true, if_false, if_true, ite_false, ite_true] <;>
    constructor
  case none.left =>
    split <;> simp [load_ovmodel_with_no_weights_trace env]
  case none.right =>
    split
    · simp
    · rename_i u heq
      intro _
      exact load_ovmodel_with_no_weights_ok_restores env _ heq
  case some.left =>
    split <;> simp [load_ovmodel_with_no_weights_trace env]
  case some.right =>
    split
    · simp
    · rename_i u heq
      intro _
      exact load_ovmodel_with_no_weights_ok_restores env _ heq

/-- Environment for the C10 witness. -/
def envC10 : OVEnv :=
  { lookupOV := fun _ => some "optimum.intel.openvino.OVModelForFeatureExtraction"
    tmpdirName := "/tmp/ov"
    loadAuto := fun _ => .ok ()
    loadOV := fun _ _ => .ok ()
    datasetGenResult := none
    quantizeResult := none }

/-- Configuration for the C10 witness: a no-weights, no-quantization load
whose export flag is configured off. -/
def cfgC10 : OVConfig :=
  { task := "feature-extraction", model := "hub/model", device := "cpu"
    library := "transformers", no_weights := true, export_ := false
    quantization := false, calibration := false
    inter_op_num_threads := none, openvino_config := [] }

/-- Witness for C10 at a concrete successful run: export was configured
false, the load still ran with export true, and both fields come back
restored. -/
theorem C10_witness :
    OVEv.loadOVModelEv (ov_no_weights_model_dir envC10) true ∈ (ovInit envC10 cfgC10).trace ∧
    (ovInit envC10 cfgC10).config.model = cfgC10.model ∧
    (ovInit envC10 cfgC10).config.export_ = cfgC10.export_ := by
  have h := C10_no_weights_load_forces_export_then_restores envC10 cfgC10
    "optimum.intel.openvino.OVModelForFeatureExtraction" rfl rfl rfl
  exact ⟨h.1, h.2 rfl⟩

end OptimumBenchmark
